import Mathlib

/-!
Verification of the Google Books assistant client (src/main.py).

The program is a thin orchestration over two external HTTP services: a
book-search service (Google Books volumes endpoint) and a text-generation
service (Cohere generate).  We embed the two services as oracles:

* `Net`  maps a (query, maxResults) pair to either a transport failure
  (a raised `requests.exceptions.RequestException`, which also covers the
  non-2xx case via `raise_for_status`) or a parsed JSON response shaped
  `{items: [{volumeInfo: {...}}]}` per the documented service contract.
* `Gen`  maps a generate request to either a failure (any exception from
  the client call) or the list of generation candidate texts.

The three operations `search_books`, `analyze_books` and
`recommend_similar_books` are translated line by line from src/main.py.
`recommendRun` and `analyzeRun` are instrumented variants that also record
the service calls issued, so that claims about which calls are made are
statable; the un-instrumented operations are their first/second projections.
-/

/-- The `volumeInfo` JSON object of one search-result item; any field may be
absent (src/main.py lines 53-60 read each field with `.get`). -/
structure VolumeInfo where
  title : Option String
  authors : Option (List String)
  description : Option String
  categories : Option (List String)
  previewLink : Option String
  pageCount : Option Int
deriving DecidableEq, Repr

/-- One element of the response's `items` array; `volumeInfo` may be absent. -/
structure Item where
  volumeInfo : Option VolumeInfo
deriving DecidableEq, Repr

/-- The JSON body of a successful search response; `items` may be absent. -/
structure SearchResponse where
  items : Option (List Item)
deriving DecidableEq, Repr

/-- The uniform record built by `search_books` (src/main.py lines 54-61). -/
structure BookRecord where
  title : Option String
  authors : List String
  description : String
  categories : List String
  preview_link : Option String
  page_count : Option Int
deriving DecidableEq, Repr

/-- The book-search service as an oracle: query and maxResults to either a
transport error message or a parsed response. -/
def Net : Type := String → Nat → Except String SearchResponse

/-- The `volumeInfo` default used when an item has no such key
(`item.get('volumeInfo', {})`, src/main.py line 53). -/
def emptyVolumeInfo : VolumeInfo :=
  { title := none, authors := none, description := none,
    categories := none, previewLink := none, pageCount := none }

/-- The per-item record construction of src/main.py lines 53-61: read
`volumeInfo` defaulting to the empty object, then each field with its
default (`authors` and `categories` to `[]`, `description` to `""`,
the rest to absent/None). -/
def bookOfItem (item : Item) : BookRecord :=
  let vi := item.volumeInfo.getD emptyVolumeInfo
  { title := vi.title
    authors := vi.authors.getD []
    description := vi.description.getD ""
    categories := vi.categories.getD []
    preview_link := vi.previewLink
    page_count := vi.pageCount }

/-- `search_books` (src/main.py lines 28-67): on a transport failure the
exception is caught and `[]` returned; on success, one record per element
of `items` (absent treated as `[]`), in response order. -/
def search_books (net : Net) (query : String) (max_results : Nat) : List BookRecord :=
  match net query max_results with
  | .error _ => []
  | .ok results => (results.items.getD []).map bookOfItem

/-- The log entries emitted by one `search_books` call (src/main.py line 66). -/
def searchLog (net : Net) (query : String) (max_results : Nat) : List String :=
  match net query max_results with
  | .error e => ["Error searching Google Books API: " ++ e]
  | .ok _ => []

/-- Python `str.join` semantics: `sep.join(parts)`. -/
def joinSep (sep : String) : List String → String
  | [] => ""
  | [s] => s
  | s :: t :: rest => s ++ sep ++ joinSep sep (t :: rest)

/-- Python f-string rendering of a value that may be None
(`f"Book: {book['title']}"` prints `None` for an absent title). -/
def pyShowOptStr : Option String → String
  | none => "None"
  | some s => s

/-- The four-line per-book block of src/main.py lines 83-86; each block
carries its own trailing newline (the f-string ends in a newline). -/
def bookBlock (book : BookRecord) : String :=
  "Book: " ++ pyShowOptStr book.title ++ "\n" ++
  "Authors: " ++ joinSep ", " book.authors ++ "\n" ++
  "Description: " ++ book.description ++ "\n" ++
  "Categories: " ++ joinSep ", " book.categories ++ "\n"

/-- The context block: `"\n".join(...)` over the per-book blocks
(src/main.py lines 82-88). -/
def mkContext (books : List BookRecord) : String :=
  joinSep "\n" (books.map bookBlock)

/-- The fixed prompt template of src/main.py lines 91-97 with `context` and
`question` substituted. -/
def promptTemplate (context question : String) : String :=
  "Based on the following books information:\n\n" ++ context ++
  "\n\nQuestion: " ++ question ++
  "\n\nPlease provide a detailed analysis of these books in relation to the question. Include relevant comparisons, themes, and insights."

/-- A generate request as issued by src/main.py lines 100-108; the float
temperature 0.7 is represented in tenths. -/
structure GenRequest where
  model : String
  prompt : String
  max_tokens : Nat
  temperature_tenths : Nat
  k : Nat
  stop_sequences : List String
  return_likelihoods : String
deriving DecidableEq, Repr

/-- The text-generation service as an oracle: a request to either a failure
message or the list of generation candidate texts. -/
def Gen : Type := GenRequest → Except String (List String)

/-- The request `analyze_books` constructs (src/main.py lines 100-107):
every parameter fixed except the prompt. -/
def analyzeGenRequest (books : List BookRecord) (question : String) : GenRequest :=
  { model := "command"
    prompt := promptTemplate (mkContext books) question
    max_tokens := 500
    temperature_tenths := 7
    k := 0
    stop_sequences := []
    return_likelihoods := "NONE" }

/-- The fixed apology string returned on any failure (src/main.py line 114). -/
def apologyString : String :=
  "I apologize, but I encountered an error while analyzing the books."

/-- How `analyze_books` turns the service outcome into its result
(src/main.py lines 110-114): a failure, or an empty candidate list (whose
indexing at 0 raises and is caught), gives the apology; otherwise the first
candidate's text stripped of surrounding whitespace. -/
def genOutcome : Except String (List String) → String
  | .error _ => apologyString
  | .ok [] => apologyString
  | .ok (t :: _) => t.trim

/-- Instrumented `analyze_books`: the request sent to the generation
service, paired with the returned string. -/
def analyzeRun (gen : Gen) (books : List BookRecord) (question : String) :
    GenRequest × String :=
  let req := analyzeGenRequest books question
  (req, genOutcome (gen req))

/-- `analyze_books` (src/main.py lines 69-114). -/
def analyze_books (gen : Gen) (books : List BookRecord) (question : String) : String :=
  (analyzeRun gen books question).2

/-- The request a run of `analyze_books` sends to the generation service. -/
def analyzeRequestSent (gen : Gen) (books : List BookRecord) (question : String) :
    GenRequest :=
  (analyzeRun gen books question).1

/-- The log entries emitted by one `analyze_books` call (src/main.py
line 113); an empty candidate list logs the caught IndexError. -/
def analyzeLog (gen : Gen) (books : List BookRecord) (question : String) : List String :=
  match gen (analyzeGenRequest books question) with
  | .error e => ["Error analyzing books with Cohere: " ++ e]
  | .ok [] => ["Error analyzing books with Cohere: list index out of range"]
  | .ok (_ :: _) => []

/-- The per-category query string (src/main.py line 140). -/
def subjectQuery (category : String) : String := "subject:" ++ category

/-- One iteration of the per-category loop of src/main.py lines 139-145:
search the category, drop candidates whose title equals the caller's
`book_title`, append the survivors, and record the call issued. -/
def recommendStep (net : Net) (book_title : String) (m : Nat)
    (st : List BookRecord × List (String × Nat)) (category : String) :
    List BookRecord × List (String × Nat) :=
  let books := search_books net (subjectQuery category) m
  (st.1 ++ books.filter (fun book => decide (book.title ≠ some book_title)),
   st.2 ++ [(subjectQuery category, m)])

/-- Instrumented `recommend_similar_books` (src/main.py lines 116-152):
the returned records paired with the list of search calls issued, as
(query, maxResults) pairs in order. -/
def recommendRun (net : Net) (book_title : String) (max_recommendations : Nat) :
    List BookRecord × List (String × Nat) :=
  match search_books net book_title 1 with
  | [] => ([], [(book_title, 1)])
  | ref :: _ =>
    let st := ref.categories.foldl
      (recommendStep net book_title max_recommendations) ([], [(book_title, 1)])
    (st.1.take max_recommendations, st.2)

/-- `recommend_similar_books` (src/main.py lines 116-152). -/
def recommend_similar_books (net : Net) (book_title : String)
    (max_recommendations : Nat) : List BookRecord :=
  (recommendRun net book_title max_recommendations).1

/-- The search calls one `recommend_similar_books` run issues, in order. -/
def recommendCalls (net : Net) (book_title : String)
    (max_recommendations : Nat) : List (String × Nat) :=
  (recommendRun net book_title max_recommendations).2

/-- The accumulated (pre-truncation) sequence of the per-category loop:
for each category in order, the category's search results with the exact
`book_title` matches removed, concatenated. -/
def recommendAccum (net : Net) (book_title : String) (m : Nat)
    (cats : List String) : List BookRecord :=
  (cats.map (fun c =>
    (search_books net (subjectQuery c) m).filter
      (fun book => decide (book.title ≠ some book_title)))).flatten

/-! Concrete service behaviours used to exercise the theorems. -/

/-- A search service that always fails at the transport level. -/
def failNet : Net := fun _ _ => .error "connection refused"

/-- A search service that always succeeds with an empty `items` array. -/
def emptyNet : Net := fun _ _ => .ok { items := some [] }

/-- An item carrying only a title. -/
def titledItem (t : String) : Item :=
  { volumeInfo := some { emptyVolumeInfo with title := some t } }

/-- An item with no `volumeInfo` at all. -/
def bareItem : Item := { volumeInfo := none }

/-- The reference item for the Dune scenario: titled Dune, one category. -/
def duneRefItem : Item :=
  { volumeInfo := some
      { emptyVolumeInfo with title := some "Dune", categories := some ["Fiction"] } }

/-- A search service for the Dune scenario: the title query resolves the
reference; the category query returns an exact-title duplicate, a
near-title book and an item with no `volumeInfo`. -/
def duneNet : Net := fun q _ =>
  if q = "Dune" then .ok { items := some [duneRefItem] }
  else if q = "subject:Fiction" then
    .ok { items := some [titledItem "Dune", titledItem "Dune Messiah", bareItem] }
  else .error "unknown query"

/-- The BookRecord the Dune reference lookup resolves to. -/
def duneRefRecord : BookRecord :=
  { title := some "Dune", authors := [], description := "",
    categories := ["Fiction"], preview_link := none, page_count := none }

/-- The BookRecord for the near-title candidate. -/
def duneMessiahRecord : BookRecord :=
  { title := some "Dune Messiah", authors := [], description := "",
    categories := [], preview_link := none, page_count := none }

/-- The BookRecord produced from an item with no `volumeInfo`. -/
def bareRecord : BookRecord :=
  { title := none, authors := [], description := "",
    categories := [], preview_link := none, page_count := none }

/-- The reference item of the two-category scenario. -/
def twoCatRefItem : Item :=
  { volumeInfo := some
      { emptyVolumeInfo with title := some "Ref", categories := some ["A", "B"] } }

/-- A search service with a reference of two categories, each category
query yielding three hits none of which is titled like the reference;
the second category repeats a title of the first. -/
def twoCatNet : Net := fun q _ =>
  if q = "Ref" then
    .ok { items := some [twoCatRefItem] }
  else if q = "subject:A" then
    .ok { items := some [titledItem "A1", titledItem "A2", titledItem "A3"] }
  else if q = "subject:B" then
    .ok { items := some [titledItem "B1", titledItem "B2", titledItem "A1"] }
  else .error "unknown query"

/-- A search service whose single hit resolves a reference with no
categories. -/
def noCatNet : Net := fun q _ =>
  if q = "Solo" then .ok { items := some [titledItem "Solo"] }
  else .error "unknown query"

/-- A fixed successful response mixing present and absent fields. -/
def mixedResp : SearchResponse :=
  { items := some
      [{ volumeInfo := some
          { title := some "T", authors := some ["X", "Y"], description := some "d",
            categories := some ["C"], previewLink := some "http", pageCount := some 7 } },
       { volumeInfo := some { emptyVolumeInfo with title := some "U" } },
       bareItem] }

/-- A search service that always returns `mixedResp`. -/
def mixedNet : Net := fun _ _ => .ok mixedResp

/-- A generation service that always fails. -/
def failGen : Gen := fun _ => .error "service unavailable"

/-- A generation service that always returns two candidates, the first
with surrounding whitespace. -/
def okGen : Gen := fun _ => .ok ["  answer text  ", "second"]

/-- A sample record for exercising the context construction. -/
def sampleBook : BookRecord :=
  { title := some "T", authors := ["A", "B"], description := "D",
    categories := ["C"], preview_link := none, page_count := none }

/-! Helper lemmas about the per-category loop. -/

/-- The fold of `recommendStep` appends, to any initial state, the
accumulated filtered results and one recorded call per category. -/
theorem recommendStep_foldl (net : Net) (bt : String) (m : Nat)
    (cats : List String) (init : List BookRecord × List (String × Nat)) :
    cats.foldl (recommendStep net bt m) init =
      (init.1 ++ recommendAccum net bt m cats,
       init.2 ++ cats.map (fun c => (subjectQuery c, m))) := by
  induction cats generalizing init with
  | nil => simp [recommendAccum]
  | cons c cs ih =>
    simp only [List.foldl_cons, ih, recommendStep, recommendAccum, List.map_cons,
      List.flatten_cons, List.append_assoc, List.singleton_append]

/-- When the reference lookup resolves, a recommend run is the truncated
accumulation paired with the reference call followed by one category call
each. -/
theorem recommendRun_eq_of_ref (net : Net) (bt : String) (m : Nat)
    (ref : BookRecord) (rest : List BookRecord)
    (h : search_books net bt 1 = ref :: rest) :
    recommendRun net bt m =
      ((recommendAccum net bt m ref.categories).take m,
       (bt, 1) :: ref.categories.map (fun c => (subjectQuery c, m))) := by
  unfold recommendRun
  rw [h]
  simp [recommendStep_foldl]

/-- C3: Search never raises: on every transport failure the exception is
caught inside `search_books`, an error entry is logged, and the empty
sequence is returned instead of a propagated fault. -/
theorem search_books_failure_swallowed (net : Net) (q : String) (m : Nat)
    (e : String) (h : net q m = .error e) :
    search_books net q m = [] ∧
    searchLog net q m = ["Error searching Google Books API: " ++ e] := by
  unfold search_books searchLog
  rw [h]
  exact ⟨rfl, rfl⟩

theorem search_books_failure_swallowed_witness :
    search_books failNet "dune" 5 = [] ∧
    searchLog failNet "dune" 5 = ["Error searching Google Books API: connection refused"] :=
  search_books_failure_swallowed failNet "dune" 5 "connection refused" rfl

/-- C4: on HTTP success Search returns one BookRecord per element of the
response's `items` array (absent treated as empty), in service order with
no re-sorting or dedup, each field read from `volumeInfo` (absent treated
as the empty object) with the documented defaults. -/
theorem search_books_success_maps_items (net : Net) (q : String) (m : Nat)
    (resp : SearchResponse) (h : net q m = .ok resp) :
    (search_books net q m).length = (resp.items.getD []).length ∧
    ∀ i : Nat, (search_books net q m).get? i =
      ((resp.items.getD []).get? i).map (fun item =>
        let vi := item.volumeInfo.getD emptyVolumeInfo
        { title := vi.title
          authors := vi.authors.getD []
          description := vi.description.getD ""
          categories := vi.categories.getD []
          preview_link := vi.previewLink
          page_count := vi.pageCount }) := by
  unfold search_books
  rw [h]
  refine ⟨List.length_map _ _, fun i => ?_⟩
  show (List.map bookOfItem (resp.items.getD [])).get? i = _
  rw [List.get?_eq_getElem?, List.getElem?_map, ← List.get?_eq_getElem?]
  rfl

theorem search_books_success_maps_items_witness :
    (search_books mixedNet "ai" 5).length = (mixedResp.items.getD []).length ∧
    (search_books mixedNet "ai" 5).get? 1 =
      ((mixedResp.items.getD []).get? 1).map (fun item =>
        let vi := item.volumeInfo.getD emptyVolumeInfo
        { title := vi.title
          authors := vi.authors.getD []
          description := vi.description.getD ""
          categories := vi.categories.getD []
          preview_link := vi.previewLink
          page_count := vi.pageCount }) :=
  ⟨(search_books_success_maps_items mixedNet "ai" 5 mixedResp rfl).1,
   (search_books_success_maps_items mixedNet "ai" 5 mixedResp rfl).2 1⟩

/-- C5: Analyze never raises: a service failure, and a malformed response
with no candidates, are caught, logged, and turned into the fixed apology
string; on success the first candidate's text is returned with surrounding
whitespace trimmed. -/
theorem analyze_books_outcomes (gen : Gen) (books : List BookRecord) (q : String) :
    (∀ e, gen (analyzeGenRequest books q) = .error e →
      analyze_books gen books q = apologyString ∧
      analyzeLog gen books q = ["Error analyzing books with Cohere: " ++ e]) ∧
    (gen (analyzeGenRequest books q) = .ok [] →
      analyze_books gen books q = apologyString) ∧
    (∀ t ts, gen (analyzeGenRequest books q) = .ok (t :: ts) →
      analyze_books gen books q = t.trim) := by
  have hb : analyze_books gen books q = genOutcome (gen (analyzeGenRequest books q)) := rfl
  refine ⟨fun e h => ⟨?_, ?_⟩, fun h => ?_, fun t ts h => ?_⟩
  · rw [hb, h]
    rfl
  · unfold analyzeLog
    rw [h]
  · rw [hb, h]
    rfl
  · rw [hb, h]
    rfl

theorem analyze_books_outcomes_witness :
    analyze_books failGen [sampleBook] "why" = apologyString ∧
    analyzeLog failGen [sampleBook] "why" =
      ["Error analyzing books with Cohere: service unavailable"] ∧
    analyze_books okGen [sampleBook] "why" = "  answer text  ".trim :=
  ⟨((analyze_books_outcomes failGen [sampleBook] "why").1 "service unavailable" rfl).1,
   ((analyze_books_outcomes failGen [sampleBook] "why").1 "service unavailable" rfl).2,
   (analyze_books_outcomes okGen [sampleBook] "why").2.2 "  answer text  " ["second"] rfl⟩

/-- C1: in Recommend, a category-search candidate is removed if and only if
its title equals the caller-supplied `book_title` exactly (case-sensitive):
a candidate is in the accumulated sequence iff it came from some resolved
category's search with title unequal to `book_title`; the returned sequence
is that accumulation truncated; and the filter is independent of the
resolved reference record's own title. -/
theorem recommend_filters_on_caller_title (net : Net) (bt : String) (m : Nat)
    (ref : BookRecord) (rest : List BookRecord)
    (href : search_books net bt 1 = ref :: rest) :
    (∀ b : BookRecord,
      b ∈ recommendAccum net bt m ref.categories ↔
        ∃ c ∈ ref.categories,
          b ∈ search_books net (subjectQuery c) m ∧ b.title ≠ some bt) ∧
    recommend_similar_books net bt m =
      (recommendAccum net bt m ref.categories).take m ∧
    (∀ t : Option String,
      recommendAccum net bt m ({ ref with title := t } : BookRecord).categories =
        recommendAccum net bt m ref.categories) := by
  refine ⟨fun b => ?_, ?_, fun t => rfl⟩
  · simp only [recommendAccum, List.mem_flatten, List.mem_map, List.mem_filter,
      decide_eq_true_eq]
    constructor
    · rintro ⟨l, ⟨c, hc, hl⟩, hb⟩
      rw [← hl] at hb
      exact ⟨c, hc, (List.mem_filter.mp hb).1,
        decide_eq_true_eq.mp (List.mem_filter.mp hb).2⟩
    · rintro ⟨c, hc, hb, ht⟩
      exact ⟨_, ⟨c, hc, rfl⟩, List.mem_filter.mpr ⟨hb, decide_eq_true ht⟩⟩
  · unfold recommend_similar_books
    rw [recommendRun_eq_of_ref net bt m ref rest href]

theorem recommend_filters_on_caller_title_witness :
    ((duneMessiahRecord ∈ recommendAccum duneNet "Dune" 3 duneRefRecord.categories ↔
      ∃ c ∈ duneRefRecord.categories,
        duneMessiahRecord ∈ search_books duneNet (subjectQuery c) 3 ∧
        duneMessiahRecord.title ≠ some "Dune") ∧
    recommend_similar_books duneNet "Dune" 3 =
      (recommendAccum duneNet "Dune" 3 duneRefRecord.categories).take 3) ∧
    recommend_similar_books duneNet "Dune" 3 = [duneMessiahRecord, bareRecord] :=
  ⟨⟨(recommend_filters_on_caller_title duneNet "Dune" 3 duneRefRecord []
      (by decide)).1 duneMessiahRecord,
    (recommend_filters_on_caller_title duneNet "Dune" 3 duneRefRecord []
      (by decide)).2.1⟩,
   by decide⟩

/-- C2: Recommend accumulates per-category filtered results in category
order and only then truncates: with two resolved categories each yielding
three hits none of which is filtered, and a cap of three, the result is
exactly the first category's search results in their original order. -/
theorem recommend_truncates_after_accumulation (net : Net) (bt c1 c2 : String)
    (ref : BookRecord) (rest : List BookRecord)
    (href : search_books net bt 1 = ref :: rest)
    (hcats : ref.categories = [c1, c2])
    (hlen1 : (search_books net (subjectQuery c1) 3).length = 3)
    (hlen2 : (search_books net (subjectQuery c2) 3).length = 3)
    (hkeep1 : ∀ b ∈ search_books net (subjectQuery c1) 3, b.title ≠ some bt)
    (hkeep2 : ∀ b ∈ search_books net (subjectQuery c2) 3, b.title ≠ some bt) :
    recommend_similar_books net bt 3 = search_books net (subjectQuery c1) 3 := by
  unfold recommend_similar_books
  rw [recommendRun_eq_of_ref net bt 3 ref rest href]
  have hf1 : (search_books net (subjectQuery c1) 3).filter
      (fun b => decide (b.title ≠ some bt)) = search_books net (subjectQuery c1) 3 :=
    List.filter_eq_self.mpr (fun b hb => decide_eq_true (hkeep1 b hb))
  simp only [recommendAccum, hcats, List.map_cons, List.map_nil,
    List.flatten_cons, List.flatten_nil, List.append_nil, hf1]
  exact List.take_left' hlen1

theorem recommend_truncates_after_accumulation_witness :
    recommend_similar_books twoCatNet "Ref" 3 =
      search_books twoCatNet (subjectQuery "A") 3 :=
  recommend_truncates_after_accumulation twoCatNet "Ref" "A" "B"
    (bookOfItem twoCatRefItem) [] (by decide) (by decide) (by decide) (by decide)
    (by decide) (by decide)

/-- C6: if the initial reference lookup returns no records, Recommend
returns the empty sequence having issued only that one search call; and if
the resolved reference has no categories, the loop runs zero times and the
result is empty, again with only the initial call issued. -/
theorem recommend_short_circuits (net : Net) (bt : String) (m : Nat) :
    (search_books net bt 1 = [] →
      recommend_similar_books net bt m = [] ∧
      recommendCalls net bt m = [(bt, 1)]) ∧
    (∀ ref rest, search_books net bt 1 = ref :: rest → ref.categories = [] →
      recommend_similar_books net bt m = [] ∧
      recommendCalls net bt m = [(bt, 1)]) := by
  constructor
  · intro h
    unfold recommend_similar_books recommendCalls recommendRun
    rw [h]
    exact ⟨rfl, rfl⟩
  · intro ref rest h hc
    refine ⟨?_, ?_⟩ <;>
      simp [recommend_similar_books, recommendCalls, recommendRun, h, hc]

theorem recommend_short_circuits_witness :
    (recommend_similar_books emptyNet "zzzznonexistentbook123" 3 = [] ∧
      recommendCalls emptyNet "zzzznonexistentbook123" 3 =
        [("zzzznonexistentbook123", 1)]) ∧
    (recommend_similar_books noCatNet "Solo" 3 = [] ∧
      recommendCalls noCatNet "Solo" 3 = [("Solo", 1)]) :=
  ⟨(recommend_short_circuits emptyNet "zzzznonexistentbook123" 3).1 rfl,
   (recommend_short_circuits noCatNet "Solo" 3).2
     (bookOfItem (titledItem "Solo")) [] (by decide) rfl⟩

/-- C7: the context-and-prompt construction of Analyze is pure and
deterministic: the request sent does not depend on the generation oracle,
and its prompt is exactly the fixed template filled with the blocks of the
given records rendered and concatenated in input order and the question. -/
theorem analyze_prompt_deterministic (g1 g2 : Gen) (books : List BookRecord)
    (q : String) :
    analyzeRequestSent g1 books q = analyzeRequestSent g2 books q ∧
    (analyzeRequestSent g1 books q).prompt =
      promptTemplate (joinSep "\n" (books.map bookBlock)) q :=
  ⟨rfl, rfl⟩

/-- C8: Analyze on an empty record sequence does not short-circuit: the
request it sends embeds the empty context in the fixed template, and its
result is exactly the handling of the generation service's answer to that
request. -/
theorem analyze_empty_still_calls_service (g : Gen) (q : String) :
    analyzeRequestSent g [] q = analyzeGenRequest [] q ∧
    (analyzeRequestSent g [] q).prompt = promptTemplate "" q ∧
    analyze_books g [] q = genOutcome (g (analyzeGenRequest [] q)) :=
  ⟨rfl, rfl, rfl⟩

/-- C9: each rendered book block ends with its own newline and blocks are
joined with one additional newline: the empty sequence gives the empty
context, one record gives exactly its block (newline-terminated), and with
more records each block is followed by the joining newline before the rest. -/
theorem context_newline_structure :
    mkContext [] = "" ∧
    (∀ b : BookRecord, mkContext [b] = bookBlock b) ∧
    (∀ b : BookRecord, ∃ p : String, bookBlock b = p ++ "\n") ∧
    (∀ (b : BookRecord) (rest : List BookRecord), rest ≠ [] →
      mkContext (b :: rest) = bookBlock b ++ "\n" ++ mkContext rest) := by
  refine ⟨rfl, fun b => rfl, fun b => ⟨_, rfl⟩, fun b rest h => ?_⟩
  cases rest with
  | nil => exact absurd rfl h
  | cons r rs => rfl

theorem context_newline_structure_witness :
    mkContext [sampleBook, sampleBook] =
      bookBlock sampleBook ++ "\n" ++ mkContext [sampleBook] :=
  context_newline_structure.2.2.2 sampleBook [sampleBook] (by decide)

/-- C10: a candidate whose title is absent (None) is never removed by the
reference-title filter, whatever `book_title` is; and there is a service
behaviour for which Recommend's returned sequence contains a record with no
title. -/
theorem none_title_never_filtered :
    (∀ (net : Net) (bt : String) (m : Nat) (ref : BookRecord)
        (rest : List BookRecord) (c : String) (b : BookRecord),
      search_books net bt 1 = ref :: rest → c ∈ ref.categories →
      b ∈ search_books net (subjectQuery c) m → b.title = none →
      b ∈ recommendAccum net bt m ref.categories) ∧
    (∃ (net : Net) (bt : String) (b : BookRecord),
      b ∈ recommend_similar_books net bt 3 ∧ b.title = none) := by
  constructor
  · intro net bt m ref rest c b _ hc hb ht
    simp only [recommendAccum, List.mem_flatten, List.mem_map]
    refine ⟨_, ⟨c, hc, rfl⟩, List.mem_filter.mpr ⟨hb, decide_eq_true ?_⟩⟩
    rw [ht]
    exact fun hcontra => Option.noConfusion hcontra
  · exact ⟨duneNet, "Dune", bareRecord, by decide, rfl⟩

theorem none_title_never_filtered_witness :
    bareRecord ∈ recommendAccum duneNet "Dune" 3 duneRefRecord.categories :=
  none_title_never_filtered.1 duneNet "Dune" 3 duneRefRecord [] "Fiction"
    bareRecord (by decide) (by decide) (by decide) rfl
